import Mathlib

/-!
Verification development for the prapti language-server streaming text
insertion engine.  The Python sources under `src/prapti/language_server/`
(`observable_lsp.py`, `inserter.py`, `prapti_run.py`, `line_endings.py`)
are shallowly embedded below: strings become `List Char`, LSP positions
become pairs of integers (Python integers are unbounded, and the cursor
arithmetic can produce negative intermediate values), and fallible code
returns `Option`/`Except`.
-/

namespace Prapti

/-- LSP `Position` (line and character in client encoding units).
Fields are `Int` because the Python implementation manipulates them with
ordinary (possibly negative) integer arithmetic. -/
structure Position where
  line : Int
  character : Int
deriving DecidableEq

/-- LSP `Range`: `start` and `end` positions. -/
structure Range where
  start : Position
  «end» : Position
deriving DecidableEq

/-- LSP `TextEdit`: a range and the replacement text. -/
structure TextEdit where
  range : Range
  new_text : List Char
deriving DecidableEq

/-- `CURSOR_CHAR` from `inserter.py`: the full block glyph U+2588. -/
def CURSOR_CHAR : Char := '█'

/-- Number of UTF-16 code units a character occupies. -/
def utf16units (c : Char) : Int := if c.val ≥ 0x10000 then 2 else 1

/-- Modelled from the spec: `PositionCodec.client_num_units` — the number of
client (UTF-16) code units of a string.  The implementation lives in the
external `pygls` dependency, not under `src/`; the spec fixes the client
encoding to UTF-16 code units. -/
def clientNumUnits (l : List Char) : Int := (l.map utf16units).sum

/-- Python `s.count(c)` for a single character, as an `Int`. -/
def countChar (c : Char) (l : List Char) : Int := (l.count c : Nat)

/-- Python `s.rsplit("\n", 1)[-1]`: the segment after the last newline
(the whole string when there is no newline). -/
def afterLastNl (l : List Char) : List Char :=
  (l.reverse.takeWhile (fun c => c ≠ '\n')).reverse

/-- Python slice `l[i:j]` for non-negative bounds (clamping, and empty
when `i ≥ j`). -/
def pySlice (l : List Char) (i j : Nat) : List Char := (l.take j).drop i

/-- Python list indexing `l[i]` including negative-index wrapping;
`none` models an `IndexError`. -/
def pythonGet (l : List (List Char)) (i : Int) : Option (List Char) :=
  if 0 ≤ i then l.get? i.toNat
  else if 0 ≤ (l.length : Int) + i then l.get? ((l.length : Int) + i).toNat
  else none

/-- Python `line.startswith(pat, start)`: negative `start` counts from the
end (clamped at 0); a start past the end never matches a non-empty
pattern. -/
def startswithAt (l pat : List Char) (i : Int) : Bool :=
  let j : Nat :=
    if i < 0 then
      (if (l.length : Int) + i < 0 then 0 else ((l.length : Int) + i).toNat)
    else i.toNat
  pat.isPrefixOf (l.drop j)

/-- Modelled from the spec: the UTF-16 → character-index direction of the
`PositionCodec` (component "PositionCodec" of the core; its implementation
is the external `pygls` dependency, not under `src/`).  Counts how many
characters of `line` are consumed by `target` UTF-16 units, clamped to the
line length. -/
def utf16ToUtf32Index : List Char → Int → Nat
  | [], _ => 0
  | c :: rest, t => if t ≤ 0 then 0 else 1 + utf16ToUtf32Index rest (t - utf16units c)

/-- Modelled from the spec: `PositionCodec.position_from_client_units`
(external `pygls` dependency; the spec specifies only that the codec
converts between client UTF-16 units and in-memory character indices).
The character coordinate is converted within the addressed line; a line
index outside the document leaves the position unchanged. -/
def position_from_client_units (lines : List (List Char)) (pos : Position) : Position :=
  match pythonGet lines pos.line with
  | some line => ⟨pos.line, (utf16ToUtf32Index line pos.character : Nat)⟩
  | none => pos

/-! ## `line_endings.py` / duplicated in `prapti_run.py` -/

/-- Python `"\r\n" in s`. -/
def containsCRLF : List Char → Bool
  | [] => false
  | [_] => false
  | c1 :: c2 :: rest => (c1 = '\r' && c2 = '\n') || containsCRLF (c2 :: rest)

/-- Python `s.replace("\r\n", "\n")`: single left-to-right non-overlapping
pass. -/
def replaceCRLFwithLF : List Char → List Char
  | [] => []
  | [c] => [c]
  | c1 :: c2 :: rest =>
    if c1 = '\r' && c2 = '\n' then '\n' :: replaceCRLFwithLF rest
    else c1 :: replaceCRLFwithLF (c2 :: rest)

/-- Python `s.replace("\n", "\r\n")`. -/
def replaceLFwithCRLF : List Char → List Char
  | [] => []
  | c :: rest =>
    if c = '\n' then '\r' :: '\n' :: replaceLFwithCRLF rest
    else c :: replaceLFwithCRLF rest

/-- `line_endings.rewrite_line_endings_to_lf`. -/
def rewrite_line_endings_to_lf (s : List Char) : List Char :=
  if containsCRLF s then replaceCRLFwithLF s else s

/-- `line_endings.rewrite_line_endings_to_crlf` (identical code is
duplicated as `prapti_run.rewrite_eol_sequence_to_crlf`). -/
def rewrite_line_endings_to_crlf (s : List Char) : List Char :=
  if s.contains '\n' then
    if containsCRLF s then replaceLFwithCRLF (replaceCRLFwithLF s)
    else replaceLFwithCRLF s
  else s

/-- `prapti_run.rewrite_eol_sequence_to_crlf` is letter-for-letter the same
function. -/
def rewrite_eol_sequence_to_crlf : List Char → List Char :=
  rewrite_line_endings_to_crlf

/-- `line_endings.detect_eol_sequence`.  `line_endings.py` does
`import os`, so its fallback returns `os.linesep` (passed here as the
`osLinesep` parameter). -/
def line_endings_detect_eol_sequence (osLinesep : List Char) (source : List Char) : List Char :=
  if containsCRLF source then ['\r', '\n']
  else if source.contains '\n' then ['\n']
  else osLinesep

/-- `prapti_run.detect_eol_sequence`.  `prapti_run.py` never imports `os`,
so evaluating `os.linesep` in the fallback branch raises a `NameError`;
the error branch records that exception.  This is the copy that
`LsPraptiRun.run` actually calls. -/
def prapti_run_detect_eol_sequence (source : List Char) : Except (List Char) (List Char) :=
  if containsCRLF source then .ok ['\r', '\n']
  else if source.contains '\n' then .ok ['\n']
  else .error ("NameError: name os is not defined".data)

/-! ## `observable_lsp.py`: minimal contiguous difference -/

/-- Index of the first position at which the two lists differ, scanning
forward over the common length (`None` when one is a prefix of the
other), as in the forward loop of `_minimal_contiguous_difference`. -/
def firstDiffIndex : List Char → List Char → Option Nat
  | a :: as_, b :: bs => if a ≠ b then some 0 else (firstDiffIndex as_ bs).map Nat.succ
  | _, _ => none

/-- `observable_lsp._minimal_contiguous_difference`.  Returns
`((astart, aend), (bstart, bend))`; `none` models a failure of one of the
`assert ... is not None` statements in the main path (the source claims
they are unreachable). -/
def _minimal_contiguous_difference (a b : List Char) :
    Option ((Nat × Nat) × (Nat × Nat)) :=
  let len_a := a.length
  let len_b := b.length
  if len_a = 0 then
    if len_b = 0 then some ((0, 0), (0, 0))
    else some ((0, 0), (0, len_b))
  else if len_b = 0 then some ((0, len_a), (0, 0))
  else if len_a < len_b && a.isPrefixOf b then some ((len_a, len_a), (len_a, len_b))
  else if len_a < len_b && a.isSuffixOf b then some ((0, 0), (0, len_b - len_a))
  else if len_b < len_a && b.isPrefixOf a then some ((len_b, len_a), (len_b, len_b))
  else if len_b < len_a && b.isSuffixOf a then some ((0, len_a - len_b), (0, 0))
  else if len_a = len_b && a = b then some ((0, 0), (0, 0))
  else
    match firstDiffIndex a b, firstDiffIndex a.reverse b.reverse with
    | some f, some k => some ((f, (len_a - (k + 1)) + 1), (f, (len_b - (k + 1)) + 1))
    | _, _ => none

/-- The postcondition checks performed (as `assert` statements) by the
checked wrapper `observable_lsp.minimal_contiguous_difference`:
common pre/post parts agree, the change applies in both directions, the
change is minimal (differing first and last characters), and the result
is symmetric.  `some false` means the computation succeeded but at least
one of the source's own assertions fails. -/
def minimal_contiguous_difference_checks (a b : List Char) : Option Bool :=
  match _minimal_contiguous_difference a b with
  | none => none
  | some ((as_, ae), (bs, be)) =>
    let a_pre := pySlice a 0 as_
    let a_diff := pySlice a as_ ae
    let a_post := a.drop ae
    let b_pre := pySlice b 0 bs
    let b_diff := pySlice b bs be
    let b_post := b.drop be
    let inv := (a_pre = b_pre) ∧ (a_post = b_post) ∧
      (a_diff ≠ b_diff ∨ (a_diff = [] ∧ b_diff = []))
    let applies := (a_pre ++ b_diff ++ a_post = b) ∧ (b_pre ++ a_diff ++ b_post = a)
    let minimal := a_diff.length > 0 ∧ b_diff.length > 0 →
      (a_diff.head? ≠ b_diff.head? ∧ a_diff.getLast? ≠ b_diff.getLast?)
    let symmetric := _minimal_contiguous_difference b a = some ((bs, be), (as_, ae))
    some (decide inv && decide applies && decide minimal && decide symmetric)

/-- `observable_lsp.client_pos_from_index`: client position of character
index `index` inside string `s`. -/
def client_pos_from_index (s : List Char) (index : Nat) : Position :=
  ⟨countChar '\n' (s.take index), clientNumUnits (afterLastNl (s.take index))⟩

/-- The core of `observable_lsp.compute_minimal_change_event` for a change
given by its pre- and post-text (the short-circuit for original events
that are already insertions or deletions passes the original through and
is handled at the call sites): the minimal contiguous ranged edit. -/
def compute_minimal_change_event (from_text to_text : List Char) :
    Option (Range × List Char) :=
  match _minimal_contiguous_difference from_text to_text with
  | none => none
  | some ((as_, ae), (bs, be)) =>
    if as_ = ae ∧ bs = be then some (⟨⟨0, 0⟩, ⟨0, 0⟩⟩, [])
    else some (⟨client_pos_from_index from_text as_, client_pos_from_index from_text ae⟩,
      pySlice to_text bs be)

/-! ## `inserter.py`: cursor data model and cursor tracking -/

/-- `inserter.CursorDescription`. -/
structure CursorDescription where
  position : Position
  has_cursor_char : Bool
  has_eol : Bool
deriving DecidableEq

/-- `inserter.CursorUpdate`. -/
structure CursorUpdate where
  from_document_version : Int
  to_document_version : Int
  text_edits : List TextEdit
  cursor : CursorDescription
deriving DecidableEq

/-- `inserter.CursorState`. -/
structure CursorState where
  cursor : CursorDescription
  at_document_version : Int
  pending_update : Option CursorUpdate
deriving DecidableEq

/-- `observable_lsp.TextDocumentContentChangeDetails`.
`original_change_event`: `some (range, text)` for a Type-1 (ranged) event,
`none` for a Type-2 (full-document) event.  `from_text`/`to_text` of the
Python dataclass are not read by any of the embedded inserter functions
(they feed `compute_minimal_change_event`, embedded separately above), so
the slice of the record used here carries the original and the computed
minimal event. -/
structure TextDocumentContentChangeDetails where
  original_change_event : Option (Range × List Char)
  minimal_change_event : Range × List Char
deriving DecidableEq

/-- `observable_lsp.TextDocumentContentChangeTransaction` (the `document`
back-reference is passed separately as the post-change document lines). -/
structure TextDocumentContentChangeTransaction where
  from_document_version : Int
  to_document_version : Int
  content_changes : List TextDocumentContentChangeDetails
deriving DecidableEq

/-- One iteration of the loop of `inserter.compute_updated_cursor_position`:
folds a single minimal (Type-1) change event `(range, text)` into the
running `(pos, have_cursor_char, expect_cursor_char_repair)` state.
Mirrors the branch structure of the source, including the fallback `else`
that is attached to the `expect_cursor_char_repair` test. -/
def updateCursorPosStep (state : Position × Bool × Bool) (ev : Range × List Char) :
    Position × Bool × Bool :=
  let pos := state.1
  let have_cc := state.2.1
  let expect := state.2.2
  let r := ev.1
  let text := ev.2
  if r.«end».line < pos.line then
    -- change entirely before pos, ending on an earlier line
    let line_delta := countChar '\n' text - (r.«end».line - r.start.line)
    (⟨pos.line + line_delta, pos.character⟩, have_cc, expect)
  else if r.«end».line = pos.line ∧ r.«end».character ≤ pos.character then
    -- change entirely before pos, ending on the same line
    if expect ∧ r.«end».character = pos.character ∧ countChar CURSOR_CHAR text = 1 then
      let text_upto_cursor := text.takeWhile (fun c => c ≠ CURSOR_CHAR)
      if text_upto_cursor.contains '\n' then
        (⟨r.start.line + countChar '\n' text_upto_cursor,
          clientNumUnits (afterLastNl text_upto_cursor)⟩, true, false)
      else
        (⟨r.start.line, r.start.character + clientNumUnits text_upto_cursor⟩, true, false)
    else
      let line_delta := countChar '\n' text - (r.«end».line - r.start.line)
      if text.contains '\n' then
        (⟨pos.line + line_delta,
          clientNumUnits (afterLastNl text) + (pos.character - r.«end».character)⟩,
          have_cc, expect)
      else
        (⟨pos.line + line_delta,
          r.start.character + clientNumUnits text + (pos.character - r.«end».character)⟩,
          have_cc, expect)
  else
    if r.start.line < pos.line ∨ (r.start.line = pos.line ∧ r.start.character < pos.character) then
      -- change straddles pos: heuristics
      let pos1 := if text.length = 0 then r.start else pos
      let h2 :=
        if have_cc ∧ countChar CURSOR_CHAR text = 1 then
          let upto := text.takeWhile (fun c => c ≠ CURSOR_CHAR)
          let line_count := countChar '\n' upto
          if line_count = 0 then
            ((⟨pos1.line, r.start.character + clientNumUnits upto⟩ : Position), true)
          else
            ((⟨pos1.line + line_count, clientNumUnits (afterLastNl upto)⟩ : Position), true)
        else (pos1, false)
      let pos2 := h2.1
      let did_retain_cursor_char := h2.2
      let h3 :=
        if expect ∧ countChar CURSOR_CHAR text = 1 then (pos2, false)
        else (r.start, expect)
      let pos3 := h3.1
      let expect' := h3.2
      let have' := if have_cc ∧ ¬did_retain_cursor_char then false else have_cc
      (pos3, have', expect')
    else
      -- change is at or after pos: ignored
      (pos, have_cc, expect)

/-- `inserter.compute_updated_cursor_position`: fold every minimal change
event of the transaction into the cursor position. -/
def compute_updated_cursor_position (initial_pos : Position) (have_cursor_char : Bool)
    (expect_cursor_char_repair : Bool) (changes : List (Range × List Char)) : Position :=
  (changes.foldl updateCursorPosStep
    (initial_pos, have_cursor_char, expect_cursor_char_repair)).1

/-- `inserter.change_startswith_edits` (inner element-wise loop): each edit
must correspond to a Type-1 original event with equal range and text. -/
def changeStartswithEditsAux : List TextDocumentContentChangeDetails → List TextEdit → Bool
  | _, [] => true
  | [], _ :: _ => false
  | c :: cs, e :: es =>
    match c.original_change_event with
    | some (r, txt) => decide (r = e.range) && decide (txt = e.new_text) &&
        changeStartswithEditsAux cs es
    | none => false

/-- `inserter.change_startswith_edits`. -/
def change_startswith_edits (t : TextDocumentContentChangeTransaction)
    (text_edits : List TextEdit) : Bool :=
  if t.content_changes.length < text_edits.length then false
  else changeStartswithEditsAux t.content_changes text_edits

/-- The brute-force refresh at the end of each pass of
`inserter.notify_document_content_change` (its lines 337-345): recompute
`has_cursor_char`/`has_eol` from the post-change document lines at the
updated position.  `none` models an out-of-range list access. -/
def brute_force_refresh_flags (lines : List (List Char)) (pos : Position) :
    Option (Bool × Bool) :=
  let py := position_from_client_units lines pos
  if py.line < (lines.length : Int) then
    match pythonGet lines py.line with
    | none => none
    | some line =>
      let hcc := startswithAt line [CURSOR_CHAR] py.character
      let heol := hcc &&
        (startswithAt line ['\n'] (py.character + 1) ||
         startswithAt line ['\r', '\n'] (py.character + 1))
      some (hcc, heol)
  else some (false, false)

/-- The tail of one cursor-state pass of `notify_document_content_change`:
fold the (possibly rewritten) transaction into the cursor position, then
recompute the flags from the new document state.  Returns the updated
cursor state together with the contribution to `do_request_cursor_repair`
(old and new `has_cursor_char` both true). -/
def fold_change_into_cursor (lines : List (List Char)) (expect_cursor_char_repair : Bool)
    (cs : CursorState) (t : TextDocumentContentChangeTransaction) :
    Option (CursorState × Bool) :=
  let newpos := compute_updated_cursor_position cs.cursor.position cs.cursor.has_cursor_char
    expect_cursor_char_repair (t.content_changes.map (fun c => c.minimal_change_event))
  match brute_force_refresh_flags lines newpos with
  | none => none
  | some flags =>
    some (⟨⟨newpos, flags.1, flags.2⟩, t.to_document_version, cs.pending_update⟩,
      cs.cursor.has_cursor_char && flags.1)

/-- One cursor state's pass of `inserter.notify_document_content_change`
(lines 258-349): reconcile the pending update against the transaction,
then fold the remaining change events and refresh the flags.  `lines` is
the post-change document content.  The returned `Bool` is this state's
contribution to `do_request_cursor_repair` (always `false` on the
`continue` branches). -/
def notify_document_content_change_one_cursor (lines : List (List Char))
    (cs : CursorState) (t : TextDocumentContentChangeTransaction) :
    Option (CursorState × Bool) :=
  match cs.pending_update with
  | none => fold_change_into_cursor lines false cs t
  | some u =>
    if u.from_document_version < t.from_document_version then
      -- discard stale pending update
      fold_change_into_cursor lines false ⟨cs.cursor, cs.at_document_version, none⟩ t
    else if u.from_document_version = t.from_document_version ∧
        u.to_document_version = t.to_document_version then
      -- match pending update by version numbers
      some (⟨u.cursor, t.to_document_version, none⟩, false)
    else if u.from_document_version = t.from_document_version then
      if change_startswith_edits t u.text_edits then
        if t.content_changes.length = u.text_edits.length then
          -- matched the whole transaction
          some (⟨u.cursor, u.to_document_version, none⟩, false)
        else
          -- matched the initial sequence; continue with the rewritten
          -- transaction holding only the trailing changes
          fold_change_into_cursor lines false ⟨u.cursor, u.to_document_version, none⟩
            { t with content_changes := t.content_changes.drop u.text_edits.length }
      else
        -- merged client and server changes: reasonable-effort recovery
        fold_change_into_cursor lines
          (!cs.cursor.has_cursor_char && u.cursor.has_cursor_char)
          ⟨cs.cursor, cs.at_document_version, none⟩ t
    else if u.from_document_version ≥ t.from_document_version ∧
        u.to_document_version ≤ t.to_document_version then
      -- transaction spans the pending update, but not from its start
      fold_change_into_cursor lines false ⟨cs.cursor, cs.at_document_version, none⟩ t
    else
      -- pending update applies to a future transaction
      fold_change_into_cursor lines false cs t

/-! ## `inserter.py`: the edit-attempt protocol (`TextInserter`) -/

/-- The slice of `TextInserter` state read by `try_begin_edit`,
`try_insert_text` and `try_remove_cursor_sequence`: the active cursor
states, the server-side document version, and the detected EOL
sequence. -/
structure InserterState where
  active_cursor_states : List CursorState
  document_version : Int
  eol_sequence : List Char
deriving DecidableEq

/-- Result of `inserter.try_begin_edit`.  `assertionError` models a failed
Python `assert` (which raises); `noCursor` models the `return None` taken
when the single cursor state has a pending update. -/
inductive BeginEditResult where
  | assertionError
  | noCursor
  | ok (cs : CursorState)
deriving DecidableEq

/-- `inserter.try_begin_edit`: requires exactly one active cursor state
(`assert`), returns `None` when it has a pending update, then asserts
that its version matches the document and snapshots it. -/
def try_begin_edit (st : InserterState) : BeginEditResult :=
  match st.active_cursor_states with
  | [cs] =>
    if cs.pending_update.isSome then .noCursor
    else if cs.at_document_version ≠ st.document_version then .assertionError
    else .ok ⟨cs.cursor, cs.at_document_version, none⟩
  | _ => .assertionError

/-- Outcome of `try_insert_text` / `try_remove_cursor_sequence`, cut at the
point where a versioned workspace edit would be submitted (the subsequent
two-path racing of `try_apply_edits` and the asynchronous `applyEdit`
response are beyond this synchronous slice).  `assertionError` models a
raised `AssertionError`; `failure` is `return False`; `immediateSuccess`
is `return True` without submitting any edit. -/
inductive EditAttemptOutcome where
  | assertionError
  | failure
  | immediateSuccess
  | submit (text_edits : List TextEdit) (cursor_upon_success : CursorDescription)
deriving DecidableEq

/-- The `cursor_repair_text` computed inside `inserter.try_insert_text`:
the glyph when it is absent, plus the document EOL sequence when the EOL
is also absent. -/
def cursor_repair_text (cursor : CursorDescription) (eol_sequence : List Char) : List Char :=
  if cursor.has_cursor_char then []
  else CURSOR_CHAR :: (if cursor.has_eol then [] else eol_sequence)

/-- `inserter.try_insert_text` up to edit submission.  Returns the outcome
together with the (unchanged, on every path modelled here) inserter
state. -/
def try_insert_text (st : InserterState) (text : List Char) :
    EditAttemptOutcome × InserterState :=
  match try_begin_edit st with
  | .assertionError => (.assertionError, st)
  | .noCursor => (.failure, st)
  | .ok cs =>
    let cursor := cs.cursor
    let insertion_range : Range := ⟨cursor.position, cursor.position⟩
    let new_position : Position :=
      if text.contains '\n' then
        ⟨cursor.position.line + countChar '\n' text, clientNumUnits (afterLastNl text)⟩
      else
        ⟨cursor.position.line, cursor.position.character + clientNumUnits text⟩
    let cursor_upon_success : CursorDescription :=
      if cursor.has_cursor_char then
        ⟨new_position, cursor.has_cursor_char, cursor.has_eol⟩
      else
        ⟨new_position, true, if cursor.has_eol then cursor.has_eol else true⟩
    let new_text := text ++ cursor_repair_text cursor st.eol_sequence
    if new_text = [] then (.immediateSuccess, st)
    else (.submit [⟨insertion_range, new_text⟩] cursor_upon_success, st)

/-- `inserter.try_remove_cursor_sequence` up to edit submission. -/
def try_remove_cursor_sequence (st : InserterState) :
    EditAttemptOutcome × InserterState :=
  match try_begin_edit st with
  | .assertionError => (.assertionError, st)
  | .noCursor => (.failure, st)
  | .ok cs =>
    let cursor := cs.cursor
    if cursor.has_cursor_char && cursor.has_eol then
      let stop : Position := ⟨cursor.position.line + 1, 0⟩
      (.submit [⟨⟨cursor.position, stop⟩, []⟩] ⟨cursor.position, false, false⟩, st)
    else if cursor.has_cursor_char then
      let stop : Position :=
        ⟨cursor.position.line, cursor.position.character + clientNumUnits [CURSOR_CHAR]⟩
      (.submit [⟨⟨cursor.position, stop⟩, []⟩] ⟨cursor.position, false, false⟩, st)
    else
      -- nothing to remove
      (.immediateSuccess, st)

/-! ## `prapti_run.py` / `inserter.py`: queue sentinel discipline -/

/-- Items of the fragment queue (`str | QueueSentinel`). -/
inductive QueueItem where
  | text (s : List Char)
  | endOfStream
  | requestCursorRepair
deriving DecidableEq

/-- The ways `prapti_run.run_prapti_text_generation` can finish, named
after the control-flow paths of the source:
phase 1 raising; the cancellation-token check after phase 1; phase 2
yielding `fragments` and then a `CompletionSentinel`; an
`asyncio.CancelledError` during phase 2 (caught); the generator raising
during phase 2 (not caught); and the generator ending without a
`CompletionSentinel` (the `assert False`). -/
inductive GenOutcome where
  | phase1Raises
  | cancelledBeforePhase2
  | completes (fragments : List (List Char)) (result_code : Int)
  | cancelledDuring (fragments : List (List Char))
  | generatorRaises (fragments : List (List Char))
  | endsWithoutCompletion (fragments : List (List Char))
deriving DecidableEq

/-- `prapti_run.run_prapti_text_generation` as a function of its outcome:
the sequence of queue pushes it performs (each yielded string is pushed
through the EOL rewriter; the `finally` block pushes `END_OF_STREAM`
exactly once on every path), and whether an exception escapes the
coroutine (`true` for a phase-1 error, a generator error, and the failed
`assert`; `false` for normal completion and for cancellation, which is
either checked cooperatively or caught as `asyncio.CancelledError`). -/
def run_prapti_text_generation (rewrite_eol_sequence : List Char → List Char) :
    GenOutcome → List QueueItem × Bool
  | .phase1Raises => ([.endOfStream], true)
  | .cancelledBeforePhase2 => ([.endOfStream], false)
  | .completes fragments _ =>
    (fragments.map (fun s => .text (rewrite_eol_sequence s)) ++ [.endOfStream], false)
  | .cancelledDuring fragments =>
    (fragments.map (fun s => .text (rewrite_eol_sequence s)) ++ [.endOfStream], false)
  | .generatorRaises fragments =>
    (fragments.map (fun s => .text (rewrite_eol_sequence s)) ++ [.endOfStream], true)
  | .endsWithoutCompletion fragments =>
    (fragments.map (fun s => .text (rewrite_eol_sequence s)) ++ [.endOfStream], true)

/-- The ways the async source of `inserter.enqueue_text_from_source` can
finish after yielding `items`. -/
inductive SourceOutcome where
  | completes (items : List (List Char))
  | cancelled (items : List (List Char))
  | raises (items : List (List Char))
deriving DecidableEq

/-- `inserter.enqueue_text_from_source` as a function of its source's
outcome: the queue pushes (the `finally` pushes `END_OF_STREAM` exactly
once) and whether an exception escapes (`asyncio.CancelledError` is
caught; other exceptions are not). -/
def enqueue_text_from_source : SourceOutcome → List QueueItem × Bool
  | .completes items => (items.map QueueItem.text ++ [.endOfStream], false)
  | .cancelled items => (items.map QueueItem.text ++ [.endOfStream], false)
  | .raises items => (items.map QueueItem.text ++ [.endOfStream], true)

/-! ## Theorems for the claims -/

/-- C1: at `pre = "cab"`, `post = "cadab"` the main path of
`_minimal_contiguous_difference` finds a common prefix of length 2
("ca") and a common suffix of length 2 ("ab") that overlap on the
3-character input, and returns the inverted range `astart = 2 > 1 = aend`
instead of choosing a non-overlapping prefix/suffix pair; the checked
wrapper's own postcondition assertions fail at this input (in particular
`b_pre + a_diff + b_post = "caab" ≠ "cab" = a`), so the claimed
correctness/minimality property does not hold. -/
theorem C1_minimal_contiguous_difference_fails_own_postconditions :
    _minimal_contiguous_difference ("cab".data) ("cadab".data) = some ((2, 1), (2, 3)) ∧
    1 < (2 : Nat) ∧
    minimal_contiguous_difference_checks ("cab".data) ("cadab".data) = some false ∧
    pySlice ("cadab".data) 0 2 ++ pySlice ("cab".data) 2 1 ++ ("cadab".data).drop 3 ≠
      "cab".data := by
  refine ⟨by decide, by decide, by decide, by decide⟩

/-- C2: a minimal change event with range `(0,0)-(0,2)` and new text
`"Y█"` straddles the cursor at `(0,1)` while `has_cursor_char` is true
and the new text contains exactly one cursor glyph (at offset 1, i.e. at
claimed resulting position `(0,1)`).  The code nevertheless returns
`(0,0)`: heuristic (2) computes the glyph position, but the fallback
`else` — attached to the `expect_cursor_char_repair` test — overwrites it
with `range.start` whenever `expect_cursor_char_repair` is false, which
is always the case when `has_cursor_char` is true. -/
theorem C2_straddle_heuristic_two_result_is_overwritten :
    compute_updated_cursor_position ⟨0, 1⟩ true false [(⟨⟨0, 0⟩, ⟨0, 2⟩⟩, "Y█".data)] =
      ⟨0, 0⟩ ∧
    countChar CURSOR_CHAR ("Y█".data) = 1 ∧
    clientNumUnits (("Y█".data).takeWhile (fun c => c ≠ CURSOR_CHAR)) = 1 ∧
    (⟨0, 0⟩ : Position) ≠ ⟨0, 1⟩ := by
  refine ⟨by decide, by decide, by decide, by decide⟩

/-- C3: `prapti_run.detect_eol_sequence` (the copy that
`LsPraptiRun.run` calls) raises `NameError` instead of returning the host
default on any source without a newline, because `prapti_run.py` never
imports `os`; the two newline-containing cases return normally, and the
duplicate in `line_endings.py` (which does import `os`) returns the host
default as claimed. -/
theorem C3_prapti_run_detect_eol_raises_on_newline_free_source :
    prapti_run_detect_eol_sequence [] =
      .error ("NameError: name os is not defined".data) ∧
    prapti_run_detect_eol_sequence ("abc".data) =
      .error ("NameError: name os is not defined".data) ∧
    prapti_run_detect_eol_sequence ("a\r\nb".data) = .ok ['\r', '\n'] ∧
    prapti_run_detect_eol_sequence ("a\nb".data) = .ok ['\n'] ∧
    (∀ osLinesep : List Char, line_endings_detect_eol_sequence osLinesep ("abc".data) =
      osLinesep) := by
  refine ⟨by rfl, by rfl, by rfl, by rfl, fun _ => by rfl⟩

/-- Server edit used in the C4 scenarios: insert `"X"` at `(0,3)`. -/
def c4edit : TextEdit := ⟨⟨⟨0, 3⟩, ⟨0, 3⟩⟩, "X".data⟩

/-- Change event matching `c4edit` (its ranged original form equals the
edit). -/
def c4change1 : TextDocumentContentChangeDetails :=
  ⟨some (⟨⟨0, 3⟩, ⟨0, 3⟩⟩, "X".data), (⟨⟨0, 3⟩, ⟨0, 3⟩⟩, "X".data)⟩

/-- Trailing client change event: insert `"ab"` at `(0,0)`, which would
shift a cursor at `(0,4)` to `(0,6)` when folded. -/
def c4change2 : TextDocumentContentChangeDetails :=
  ⟨some (⟨⟨0, 0⟩, ⟨0, 0⟩⟩, "ab".data), (⟨⟨0, 0⟩, ⟨0, 0⟩⟩, "ab".data)⟩

/-- Pending update for the C4 scenarios: versions 3 → 4, edits `[c4edit]`,
hypothesised cursor `(0,4)`. -/
def c4pending : CursorUpdate := ⟨3, 4, [c4edit], ⟨⟨0, 4⟩, false, false⟩⟩

/-- Cursor state holding `c4pending`. -/
def c4state : CursorState := ⟨⟨⟨0, 0⟩, false, false⟩, 3, some c4pending⟩

/-- C4 counterexample transaction: versions 3 → 4 (equal to the pending
update's versions) with the matching event and a trailing event. -/
def c4transactionSameTo : TextDocumentContentChangeTransaction := ⟨3, 4, [c4change1, c4change2]⟩

/-- C4 witness transaction: versions 3 → 5 (`to_version` differs from the
pending update's 4) with the matching event and a trailing event. -/
def c4transactionLaterTo : TextDocumentContentChangeTransaction := ⟨3, 5, [c4change1, c4change2]⟩

/-- C4 counterexample: the pending update has `from_version` 3 equal to
the transaction's, and the transaction begins with change events whose
ranged form equals `pending.text_edits` — yet because the transaction's
`to_version` also equals `pending.to_version`, the version-match branch
fires and the trailing change event is NOT folded: the cursor stays at
the adopted `(0,4)` although folding the trailing insertion of `"ab"` at
`(0,0)` (as the claim prescribes) would move it to `(0,6)`. -/
theorem C4_counterexample_version_match_skips_trailing_changes :
    change_startswith_edits c4transactionSameTo c4pending.text_edits = true ∧
    c4pending.from_document_version = c4transactionSameTo.from_document_version ∧
    notify_document_content_change_one_cursor [] c4state c4transactionSameTo =
      some (⟨⟨⟨0, 4⟩, false, false⟩, 4, none⟩, false) ∧
    compute_updated_cursor_position ⟨0, 4⟩ false false
      [c4change2.minimal_change_event] = ⟨0, 6⟩ ∧
    (⟨0, 4⟩ : Position) ≠ ⟨0, 6⟩ := by
  refine ⟨by decide, by decide, by decide, by decide, by decide⟩

/-- C4 (amended): when the pending update's `from_version` equals the
transaction's, its `to_version` DIFFERS from the transaction's, and the
transaction begins with change events whose ranged form equals
`pending.text_edits` element-wise, the cursor adopts `pending.cursor`,
the pending update is cleared, and only the trailing change events beyond
the matched prefix are folded into the cursor position, via a rewritten
transaction containing only those trailing changes (when there are no
trailing changes, `at_version` stays at `pending.to_version`). -/
theorem C4_amended_content_match_folds_only_trailing_changes
    (lines : List (List Char)) (cs : CursorState)
    (t : TextDocumentContentChangeTransaction) (u : CursorUpdate)
    (hpend : cs.pending_update = some u)
    (hfrom : u.from_document_version = t.from_document_version)
    (hto : u.to_document_version ≠ t.to_document_version)
    (hsw : change_startswith_edits t u.text_edits = true) :
    notify_document_content_change_one_cursor lines cs t =
      if t.content_changes.length = u.text_edits.length then
        some (⟨u.cursor, u.to_document_version, none⟩, false)
      else
        fold_change_into_cursor lines false ⟨u.cursor, u.to_document_version, none⟩
          { t with content_changes := t.content_changes.drop u.text_edits.length } := by
  unfold notify_document_content_change_one_cursor
  rw [hpend]
  dsimp only
  rw [if_neg (by omega), if_neg (fun h => hto h.2), if_pos hfrom, if_pos hsw]

/-- C4 witness: the amended theorem applied to the concrete scenario with
`to_version` 5 ≠ 4 and one trailing change: the result is the fold of the
rewritten transaction holding only the trailing event, starting from the
adopted pending cursor. -/
theorem C4_amended_witness :
    ((⟨⟨⟨0, 0⟩, false, false⟩, 3, some c4pending⟩ : CursorState).pending_update =
      some c4pending ∧
     c4pending.from_document_version = c4transactionLaterTo.from_document_version ∧
     c4pending.to_document_version ≠ c4transactionLaterTo.to_document_version ∧
     change_startswith_edits c4transactionLaterTo c4pending.text_edits = true) ∧
    notify_document_content_change_one_cursor [] c4state c4transactionLaterTo =
      if c4transactionLaterTo.content_changes.length = c4pending.text_edits.length then
        some (⟨c4pending.cursor, c4pending.to_document_version, none⟩, false)
      else
        fold_change_into_cursor [] false
          ⟨c4pending.cursor, c4pending.to_document_version, none⟩
          { c4transactionLaterTo with
            content_changes := c4transactionLaterTo.content_changes.drop
              c4pending.text_edits.length } :=
  ⟨⟨by decide, by decide, by decide, by decide⟩,
    C4_amended_content_match_folds_only_trailing_changes [] c4state c4transactionLaterTo
      c4pending (by decide) (by decide) (by decide) (by decide)⟩

/-- Helper: on a state with exactly one active cursor state, no pending
update and a matching document version, `try_begin_edit` succeeds with a
snapshot of the cursor state. -/
theorem try_begin_edit_ok (c : CursorDescription) (v : Int) (eol : List Char) :
    try_begin_edit ⟨[⟨c, v, none⟩], v, eol⟩ = .ok ⟨c, v, none⟩ := by
  unfold try_begin_edit
  simp

/-- C5: with exactly one active cursor state and no pending update, when
`has_cursor_char` is false `try_insert_text text` submits the edit whose
text is `text` with the cursor glyph appended — followed by the
document's EOL sequence exactly when `has_eol` is also false — and
`cursor_upon_success` has `has_cursor_char = true` (and `has_eol = true`);
and when the resulting text (`text` plus the repair suffix) is empty it
returns success immediately without submitting any edit, leaving the
state unchanged. -/
theorem C5_try_insert_text_appends_cursor_repair (c : CursorDescription) (v : Int)
    (eol text : List Char) :
    (c.has_cursor_char = false →
      ∃ p, try_insert_text ⟨[⟨c, v, none⟩], v, eol⟩ text =
        (.submit [⟨⟨c.position, c.position⟩,
            text ++ CURSOR_CHAR :: (if c.has_eol then [] else eol)⟩]
          ⟨p, true, true⟩, ⟨[⟨c, v, none⟩], v, eol⟩)) ∧
    (text ++ cursor_repair_text c eol = [] →
      try_insert_text ⟨[⟨c, v, none⟩], v, eol⟩ text =
        (.immediateSuccess, ⟨[⟨c, v, none⟩], v, eol⟩)) := by
  constructor
  · intro h
    refine ⟨if text.contains '\n' then
        ⟨c.position.line + countChar '\n' text, clientNumUnits (afterLastNl text)⟩
      else ⟨c.position.line, c.position.character + clientNumUnits text⟩, ?_⟩
    unfold try_insert_text
    rw [try_begin_edit_ok]
    cases he : c.has_eol <;> simp [cursor_repair_text, h, he]
  · intro h
    unfold try_insert_text
    rw [try_begin_edit_ok]
    dsimp only
    rw [if_pos h]

/-- C5 witness: the theorem applied at a cursor without the glyph at
`(0,0)`, document EOL `"\n"`, inserting `"hi"`: an edit is submitted with
text `"hi█\n"` and a success-cursor carrying both flags; and at a cursor
with the glyph and empty pending text the call succeeds immediately. -/
theorem C5_witness :
    ((⟨⟨0, 0⟩, false, false⟩ : CursorDescription).has_cursor_char = false ∧
      ∃ p, try_insert_text ⟨[⟨⟨⟨0, 0⟩, false, false⟩, 1, none⟩], 1, ['\n']⟩ ("hi".data) =
        (.submit [⟨⟨⟨0, 0⟩, ⟨0, 0⟩⟩,
            "hi".data ++ CURSOR_CHAR ::
              (if (⟨⟨0, 0⟩, false, false⟩ : CursorDescription).has_eol then [] else ['\n'])⟩]
          ⟨p, true, true⟩, ⟨[⟨⟨⟨0, 0⟩, false, false⟩, 1, none⟩], 1, ['\n']⟩)) ∧
    ([] ++ cursor_repair_text ⟨⟨0, 2⟩, true, true⟩ ['\n'] = [] ∧
      try_insert_text ⟨[⟨⟨⟨0, 2⟩, true, true⟩, 1, none⟩], 1, ['\n']⟩ [] =
        (.immediateSuccess, ⟨[⟨⟨⟨0, 2⟩, true, true⟩, 1, none⟩], 1, ['\n']⟩)) :=
  ⟨⟨rfl, (C5_try_insert_text_appends_cursor_repair ⟨⟨0, 0⟩, false, false⟩ 1 ['\n']
      ("hi".data)).1 rfl⟩,
   ⟨by decide, (C5_try_insert_text_appends_cursor_repair ⟨⟨0, 2⟩, true, true⟩ 1 ['\n'] []).2
      (by decide)⟩⟩

/-- C6 counterexample: with two active cursor states (the transient
two-path configuration) the precondition "exactly one active cursor
state" fails, but `try_insert_text` and `try_remove_cursor_sequence` do
not return failure: the `assert len(self.active_cursor_states) == 1` in
`try_begin_edit` raises an `AssertionError` instead. -/
theorem C6_counterexample_two_cursor_states_raise_assertion :
    (try_insert_text
      ⟨[⟨⟨⟨0, 0⟩, false, false⟩, 0, none⟩, ⟨⟨⟨0, 0⟩, false, false⟩, 0, none⟩], 0, ['\n']⟩
      ("x".data)).1 = .assertionError ∧
    (try_remove_cursor_sequence
      ⟨[⟨⟨⟨0, 0⟩, false, false⟩, 0, none⟩, ⟨⟨⟨0, 0⟩, false, false⟩, 0, none⟩], 0,
        ['\n']⟩).1 = .assertionError ∧
    EditAttemptOutcome.assertionError ≠ .failure := by
  refine ⟨by decide, by decide, by decide⟩

/-- C6 (amended): when the single active cursor state has a pending
update, `try_insert_text` and `try_remove_cursor_sequence` return failure
(they do not raise), submit no workspace edit, and leave the cursor
states unchanged, so the caller can back off and retry; but when the
number of active cursor states is not exactly one, they raise an
assertion error instead of returning failure. -/
theorem C6_amended_pending_update_returns_failure (c : CursorDescription) (v dv : Int)
    (u : CursorUpdate) (eol text : List Char) :
    try_insert_text ⟨[⟨c, v, some u⟩], dv, eol⟩ text =
      (.failure, ⟨[⟨c, v, some u⟩], dv, eol⟩) ∧
    try_remove_cursor_sequence ⟨[⟨c, v, some u⟩], dv, eol⟩ =
      (.failure, ⟨[⟨c, v, some u⟩], dv, eol⟩) := by
  constructor <;> rfl

/-- C7: `try_remove_cursor_sequence` applied twice is the same as applied
once: with one active cursor state and no pending update, any edit it
submits carries a `cursor_upon_success` with both flags cleared and the
position kept; and on a cursor whose `has_cursor_char` is already false
it returns success immediately, constructing no edit and leaving the
state unchanged. -/
theorem C7_remove_cursor_sequence_idempotent (c : CursorDescription) (v : Int)
    (eol : List Char) :
    (∀ text_edits cursor_upon_success,
      (try_remove_cursor_sequence ⟨[⟨c, v, none⟩], v, eol⟩).1 =
        .submit text_edits cursor_upon_success →
      cursor_upon_success = ⟨c.position, false, false⟩) ∧
    (c.has_cursor_char = false →
      try_remove_cursor_sequence ⟨[⟨c, v, none⟩], v, eol⟩ =
        (.immediateSuccess, ⟨[⟨c, v, none⟩], v, eol⟩)) := by
  constructor
  · intro text_edits cursor_upon_success h
    unfold try_remove_cursor_sequence at h
    rw [try_begin_edit_ok] at h
    obtain ⟨pos, hcc, heol⟩ := c
    cases hcc <;> cases heol <;> simp_all
  · intro h
    unfold try_remove_cursor_sequence
    rw [try_begin_edit_ok]
    simp [h]

/-- C7 witness: after a successful removal the cursor is
`⟨p, false, false⟩`; running `try_remove_cursor_sequence` on such a
cursor returns immediate success and leaves the state unchanged; and on a
cursor that still has the glyph, the submitted success-cursor indeed has
both flags cleared. -/
theorem C7_witness :
    ((⟨⟨0, 3⟩, false, false⟩ : CursorDescription).has_cursor_char = false ∧
      try_remove_cursor_sequence ⟨[⟨⟨⟨0, 3⟩, false, false⟩, 2, none⟩], 2, ['\n']⟩ =
        (.immediateSuccess, ⟨[⟨⟨⟨0, 3⟩, false, false⟩, 2, none⟩], 2, ['\n']⟩)) ∧
    ((try_remove_cursor_sequence ⟨[⟨⟨⟨0, 3⟩, true, true⟩, 2, none⟩], 2, ['\n']⟩).1 =
        .submit [⟨⟨⟨0, 3⟩, ⟨1, 0⟩⟩, []⟩] ⟨⟨0, 3⟩, false, false⟩ ∧
      (⟨⟨0, 3⟩, false, false⟩ : CursorDescription) = ⟨⟨0, 3⟩, false, false⟩) :=
  ⟨⟨rfl, (C7_remove_cursor_sequence_idempotent ⟨⟨0, 3⟩, false, false⟩ 2 ['\n']).2 rfl⟩,
   ⟨by decide, (C7_remove_cursor_sequence_idempotent ⟨⟨0, 3⟩, true, true⟩ 2 ['\n']).1
      [⟨⟨⟨0, 3⟩, ⟨1, 0⟩⟩, []⟩] ⟨⟨0, 3⟩, false, false⟩ (by decide)⟩⟩

/-- C8 counterexample: when the generator raises during phase 2, the
coroutine pushes exactly one `EndOfStream` (the `finally` block), but the
exception escapes the coroutine — nothing in
`run_prapti_text_generation` or `LsPraptiRun.run` catches it — so the
claim's "no error propagates past the run boundary" fails. -/
theorem C8_counterexample_generator_error_escapes :
    run_prapti_text_generation id (GenOutcome.generatorRaises []) =
      ([QueueItem.endOfStream], true) ∧
    (run_prapti_text_generation id (GenOutcome.generatorRaises [])).2 ≠ false := by
  refine ⟨rfl, by simp [run_prapti_text_generation]⟩

/-- C8 (amended): whenever the text-generation coroutine finishes — by
normal completion, by cancellation, or by an exception — exactly one
`EndOfStream` sentinel is pushed onto the fragment queue (and likewise
for `enqueue_text_from_source`), so downstream cleanup is always reached;
cancellation and normal completion propagate no error, but an exception
from phase 1 or from the generator escapes the coroutine after the
sentinel has been pushed. -/
theorem C8_amended_exactly_one_end_of_stream (rewriter : List Char → List Char)
    (o : GenOutcome) (so : SourceOutcome) :
    (run_prapti_text_generation rewriter o).1.count QueueItem.endOfStream = 1 ∧
    (enqueue_text_from_source so).1.count QueueItem.endOfStream = 1 ∧
    ((o = .cancelledBeforePhase2 ∨ (∃ fs, o = .cancelledDuring fs) ∨
        ∃ fs rc, o = .completes fs rc) →
      (run_prapti_text_generation rewriter o).2 = false) := by
  have hmap : ∀ fs : List (List Char),
      (fs.map (fun s => QueueItem.text (rewriter s))).count QueueItem.endOfStream = 0 := by
    intro fs
    exact List.count_eq_zero.mpr (by simp)
  have hmap2 : ∀ fs : List (List Char),
      (fs.map QueueItem.text).count QueueItem.endOfStream = 0 := by
    intro fs
    exact List.count_eq_zero.mpr (by simp)
  refine ⟨?_, ?_, ?_⟩
  · cases o <;> simp [run_prapti_text_generation, List.count_append, hmap]
  · cases so <;> simp [enqueue_text_from_source, List.count_append, hmap2]
  · rintro (rfl | ⟨fs, rfl⟩ | ⟨fs, rc, rfl⟩) <;> rfl

/-- C8 witness: the amended theorem at the identity rewriter, a
cancellation outcome and a completed source: one sentinel each, and no
escaping error on the cancellation path. -/
theorem C8_amended_witness :
    (run_prapti_text_generation id GenOutcome.cancelledBeforePhase2).1.count
      QueueItem.endOfStream = 1 ∧
    (enqueue_text_from_source (SourceOutcome.completes [])).1.count
      QueueItem.endOfStream = 1 ∧
    (run_prapti_text_generation id GenOutcome.cancelledBeforePhase2).2 = false := by
  have h := C8_amended_exactly_one_end_of_stream id GenOutcome.cancelledBeforePhase2
    (SourceOutcome.completes [])
  exact ⟨h.1, h.2.1, h.2.2 (Or.inl rfl)⟩

/-- Helper: `replaceLFwithCRLF` never produces a list that starts with a
bare newline. -/
theorem replaceLFwithCRLF_head_ne_nl (u : List Char) (l : List Char) :
    replaceLFwithCRLF u ≠ '\n' :: l := by
  match u with
  | [] => simp [replaceLFwithCRLF]
  | c :: r =>
    by_cases hc : c = '\n'
    · subst hc
      simp [replaceLFwithCRLF]
    · simp only [replaceLFwithCRLF, if_neg hc, ne_eq, List.cons.injEq, not_and]
      intro hcn
      exact absurd hcn hc

/-- Helper: `replaceLFwithCRLF` maps only the empty list to the empty
list. -/
theorem replaceLFwithCRLF_eq_nil_iff (u : List Char) :
    replaceLFwithCRLF u = [] ↔ u = [] := by
  cases u with
  | nil => simp [replaceLFwithCRLF]
  | cons c r =>
    constructor
    · intro h
      by_cases hc : c = '\n' <;> simp [replaceLFwithCRLF, hc] at h
    · intro h
      exact absurd h (by simp)

/-- Helper: collapsing CRLF to LF undoes expanding LF to CRLF. -/
theorem replaceCRLFwithLF_replaceLFwithCRLF (u : List Char) :
    replaceCRLFwithLF (replaceLFwithCRLF u) = u := by
  induction u with
  | nil => rfl
  | cons c r ih =>
    by_cases hc : c = '\n'
    · subst hc
      have h1 : replaceLFwithCRLF ('\n' :: r) = '\r' :: '\n' :: replaceLFwithCRLF r := by
        simp [replaceLFwithCRLF]
      have h2 : replaceCRLFwithLF ('\r' :: '\n' :: replaceLFwithCRLF r) =
          '\n' :: replaceCRLFwithLF (replaceLFwithCRLF r) := by
        simp [replaceCRLFwithLF]
      rw [h1, h2, ih]
    · simp only [replaceLFwithCRLF, if_neg hc]
      cases he : replaceLFwithCRLF r with
      | nil =>
        have hr : r = [] := (replaceLFwithCRLF_eq_nil_iff r).mp he
        subst hr
        rfl
      | cons d t =>
        have hd : d ≠ '\n' := by
          intro hdn
          subst hdn
          exact replaceLFwithCRLF_head_ne_nl r t he
        have hcond : ¬(c = '\r' ∧ d = '\n') := fun hh => hd hh.2
        have : replaceCRLFwithLF (c :: d :: t) = c :: replaceCRLFwithLF (d :: t) := by
          simp only [replaceCRLFwithLF]
          rw [if_neg (by simpa using hcond)]
        rw [this, ← he, ih]

/-- Helper: a newline survives `replaceCRLFwithLF`. -/
theorem nl_mem_replaceCRLFwithLF : ∀ s : List Char, '\n' ∈ s →
    '\n' ∈ replaceCRLFwithLF s
  | [], h => by simp at h
  | [c], h => by simpa [replaceCRLFwithLF] using h
  | c1 :: c2 :: rest, h => by
    by_cases hc : c1 = '\r' ∧ c2 = '\n'
    · have hcond : (decide (c1 = '\r') && decide (c2 = '\n')) = true := by
        simp [hc.1, hc.2]
      simp only [replaceCRLFwithLF]
      rw [if_pos hcond]
      exact List.mem_cons_self _ _
    · have hcond : ¬((decide (c1 = '\r') && decide (c2 = '\n')) = true) := by
        simpa using hc
      simp only [replaceCRLFwithLF]
      rw [if_neg hcond]
      rcases List.mem_cons.mp h with h1 | h2
      · exact List.mem_cons.mpr (Or.inl h1)
      · exact List.mem_cons.mpr (Or.inr (nl_mem_replaceCRLFwithLF (c2 :: rest) h2))

/-- Helper: a newline survives `replaceLFwithCRLF`. -/
theorem nl_mem_replaceLFwithCRLF (u : List Char) (h : '\n' ∈ u) :
    '\n' ∈ replaceLFwithCRLF u := by
  induction u with
  | nil => simp at h
  | cons c r ih =>
    by_cases hc : c = '\n'
    · subst hc
      simp [replaceLFwithCRLF]
    · simp only [replaceLFwithCRLF, if_neg hc]
      rcases List.mem_cons.mp h with h1 | h2
      · exact absurd h1.symm hc
      · exact List.mem_cons.mpr (Or.inr (ih h2))

/-- Helper: after expanding, every newline is part of a CRLF pair, so the
result contains `"\r\n"` whenever the input contains a newline. -/
theorem containsCRLF_replaceLFwithCRLF (u : List Char) (h : '\n' ∈ u) :
    containsCRLF (replaceLFwithCRLF u) = true := by
  induction u with
  | nil => simp at h
  | cons c r ih =>
    by_cases hc : c = '\n'
    · subst hc
      simp [replaceLFwithCRLF, containsCRLF]
    · simp only [replaceLFwithCRLF, if_neg hc]
      have h2 : '\n' ∈ r := by
        rcases List.mem_cons.mp h with h1 | h2
        · exact absurd h1.symm hc
        · exact h2
      cases he : replaceLFwithCRLF r with
      | nil =>
        have : r = [] := (replaceLFwithCRLF_eq_nil_iff r).mp he
        subst this
        simp at h2
      | cons d t =>
        have : containsCRLF (d :: t) = true := by
          rw [← he]
          exact ih h2
        simp [containsCRLF, this]

/-- C9 counterexample: `rewrite_line_endings_to_lf` is not idempotent:
on `"\r\r\n\n"` the first pass produces `"\r\n\n"` (the replacement scan
creates a fresh `"\r\n"` pair), and a second pass collapses it further to
`"\n\n"`. -/
theorem C9_counterexample_to_lf_not_idempotent :
    rewrite_line_endings_to_lf (rewrite_line_endings_to_lf ("\r\r\n\n".data)) ≠
      rewrite_line_endings_to_lf ("\r\r\n\n".data) := by
  decide

/-- C9 (amended): `rewrite_line_endings_to_crlf` is idempotent for every
string (as is the letter-for-letter identical
`rewrite_eol_sequence_to_crlf` in `prapti_run.py`);
`rewrite_line_endings_to_lf` is not idempotent in general. -/
theorem C9_amended_rewrite_to_crlf_idempotent (s : List Char) :
    rewrite_line_endings_to_crlf (rewrite_line_endings_to_crlf s) =
      rewrite_line_endings_to_crlf s := by
  by_cases h : s.contains '\n'
  · have hmem : '\n' ∈ s := by simpa using h
    have key : ∀ u : List Char, '\n' ∈ u →
        rewrite_line_endings_to_crlf (replaceLFwithCRLF u) = replaceLFwithCRLF u := by
      intro u hu
      have h1 : (replaceLFwithCRLF u).contains '\n' = true := by
        simpa using nl_mem_replaceLFwithCRLF u hu
      have h2 : containsCRLF (replaceLFwithCRLF u) = true :=
        containsCRLF_replaceLFwithCRLF u hu
      unfold rewrite_line_endings_to_crlf
      rw [if_pos h1, if_pos h2, replaceCRLFwithLF_replaceLFwithCRLF]
    unfold rewrite_line_endings_to_crlf
    rw [if_pos h]
    by_cases hc : containsCRLF s
    · rw [if_pos hc]
      exact key (replaceCRLFwithLF s) (nl_mem_replaceCRLFwithLF s hmem)
    · rw [if_neg hc]
      exact key s hmem
  · have hs : rewrite_line_endings_to_crlf s = s := by
      unfold rewrite_line_endings_to_crlf
      rw [if_neg h]
    rw [hs, hs]

/-- C10: the brute-force flag refresh at the end of every
`notify_document_content_change` pass is total over (non-negative)
updated cursor positions: it always produces a flag pair without any
out-of-range access, and for a position whose line index is at or past
the number of document lines it yields `has_cursor_char = false` and
`has_eol = false`.  (Position coordinates are `u32` in the spec's data
model, hence the non-negativity hypothesis.) -/
theorem C10_brute_force_refresh_total_and_false_outside
    (lines : List (List Char)) (pos : Position) (h : 0 ≤ pos.line) :
    (brute_force_refresh_flags lines pos).isSome = true ∧
    ((lines.length : Int) ≤ pos.line →
      brute_force_refresh_flags lines pos = some (false, false)) := by
  have htn : (pos.line.toNat : Int) = pos.line := Int.toNat_of_nonneg h
  by_cases hlt : pos.line < (lines.length : Int)
  · have hnat : pos.line.toNat < lines.length := by omega
    have hget : lines.get? pos.line.toNat = some (lines.get ⟨pos.line.toNat, hnat⟩) :=
      List.get?_eq_get hnat
    have hpg : pythonGet lines pos.line = some (lines.get ⟨pos.line.toNat, hnat⟩) := by
      unfold pythonGet
      rw [if_pos h, hget]
    have hcodec : position_from_client_units lines pos =
        ⟨pos.line,
          (utf16ToUtf32Index (lines.get ⟨pos.line.toNat, hnat⟩) pos.character : Nat)⟩ := by
      unfold position_from_client_units
      rw [hpg]
    refine ⟨?_, fun hout => absurd hout (by omega)⟩
    unfold brute_force_refresh_flags
    rw [hcodec]
    dsimp only
    rw [if_pos hlt, hpg]
    rfl
  · have hnone : pythonGet lines pos.line = none := by
      unfold pythonGet
      rw [if_pos h]
      exact List.get?_eq_none.mpr (by omega)
    have hcodec : position_from_client_units lines pos = pos := by
      unfold position_from_client_units
      rw [hnone]
    have hres : brute_force_refresh_flags lines pos = some (false, false) := by
      unfold brute_force_refresh_flags
      rw [hcodec]
      dsimp only
      rw [if_neg hlt]
    exact ⟨by rw [hres]; rfl, fun _ => hres⟩

/-- C10 witness: on the one-line document `"a█\n"`, the refresh at the
out-of-document position `(5, 0)` is defined and clears both flags. -/
theorem C10_witness :
    (0 : Int) ≤ (5 : Int) ∧
    (brute_force_refresh_flags [("a█\n".data)] ⟨5, 0⟩).isSome = true ∧
    brute_force_refresh_flags [("a█\n".data)] ⟨5, 0⟩ = some (false, false) := by
  have h := C10_brute_force_refresh_total_and_false_outside [("a█\n".data)] ⟨5, 0⟩
    (by decide)
  exact ⟨by decide, h.1, h.2 (by decide)⟩

end Prapti
